import Mathlib

/-!
Verification of the event_service load-test suite.

Shallow embedding of the two scripts:
  * `locustfile.py` — virtual-user task catalog, payload generator, and
    per-request outcome classification;
  * `load_test.py` — health preflight, per-stage SLA analysis, the
    multi-stage orchestration loop, and the final report.

External effects (HTTP responses, the locust subprocess's exit status, the
presence and contents of the per-stage statistics CSV) are passed in as
explicit parameters; the functions below compute exactly what the Python
code computes with those observations.
-/

namespace EventService

/-! ## locustfile.py -/

/-- The fixed `metadata` block of every event payload
(locustfile.py, `send_event`). -/
structure Metadata where
  app_version : String
  platform : String
  load_test : Bool
deriving Repr, DecidableEq

/-- The `payload` sub-object of an event: empty by default, a purchase body
for purchases with a truthy amount, a click body for clicks. -/
inductive PayloadBody
  | empty
  | purchaseBody (item_id : String) (amount : ℚ) (currency : String)
  | clickBody (button : String) (page : String)
deriving Repr, DecidableEq

/-- The JSON body built by `EventServiceUser.send_event`. -/
structure EventPayload where
  user_id : String
  event_type : String
  timestamp : String
  payload : PayloadBody
  priority : ℤ
  metadata : Metadata
deriving Repr, DecidableEq

/-- `EventServiceUser.send_event`: builds the event payload.
`user_id` is the per-user UUID fixed in `on_start`; `now` stands for
`datetime.utcnow().isoformat()` captured at call time (the code appends
a literal `"Z"`); `fresh_hex` stands for `uuid.uuid4().hex[:8]`.
The Python guard `if event_type == 'purchase' and amount:` tests
truthiness of `amount`, i.e. `amount` is not None and not zero, which is
`amount.getD 0 ≠ 0` here. -/
def send_event (user_id now event_type : String) (priority : ℤ)
    (amount : Option ℚ) (fresh_hex : String) : EventPayload :=
  let base : EventPayload :=
    { user_id := user_id
      event_type := event_type
      timestamp := now ++ "Z"
      payload := PayloadBody.empty
      priority := priority
      metadata := { app_version := "2.1.0", platform := "web", load_test := true } }
  if event_type = "purchase" ∧ amount.getD 0 ≠ 0 then
    { base with payload := PayloadBody.purchaseBody ("item_" ++ fresh_hex) (amount.getD 0) "USD" }
  else if event_type = "click" then
    { base with payload := PayloadBody.clickBody "buy_now" "/products/123" }
  else
    base

/-- The three weighted locust tasks of `EventServiceUser`. -/
inductive TaskName
  | send_low_priority_event
  | send_medium_priority_event
  | send_high_priority_event
deriving Repr, DecidableEq

/-- The `@task(w)` weight of each task: 5, 3, 1. -/
def task_weight : TaskName → ℕ
  | .send_low_priority_event => 5
  | .send_medium_priority_event => 3
  | .send_high_priority_event => 1

/-- The event category each task sends. -/
def task_event_type : TaskName → String
  | .send_low_priority_event => "click"
  | .send_medium_priority_event => "login"
  | .send_high_priority_event => "purchase"

/-- The priority each task passes to `send_event`. -/
def task_priority : TaskName → ℤ
  | .send_low_priority_event => 1
  | .send_medium_priority_event => 5
  | .send_high_priority_event => 9

/-- The task catalog in declaration order with its weights. -/
def task_catalog : List (TaskName × ℕ) :=
  [(.send_low_priority_event, 5), (.send_medium_priority_event, 3),
   (.send_high_priority_event, 1)]

/-- Locust expands `@task(w)` methods into a list in which each task
appears `w` times; the scheduler then draws uniformly from this list. -/
def expanded_tasks : List TaskName :=
  task_catalog.flatMap (fun p => List.replicate p.2 p.1)

/-- Running one task: each task body calls `send_event` with its fixed
category and priority; only the purchase task passes `amount=99.99`. -/
def run_task (t : TaskName) (user_id now fresh_hex : String) : EventPayload :=
  match t with
  | .send_low_priority_event => send_event user_id now "click" 1 none fresh_hex
  | .send_medium_priority_event => send_event user_id now "login" 5 none fresh_hex
  | .send_high_priority_event =>
      send_event user_id now "purchase" 9 (some (9999 / 100)) fresh_hex

/-- The status code `send_event` observes on its response. With
`catch_response=True`, a transport-level failure yields a locust response
whose `status_code` is 0, so a missing code reads as 0. -/
def response_status_code : Option ℕ → ℕ
  | some c => c
  | none => 0

/-- Outcome classification in `send_event`: `response.success()` is called
iff `response.status_code == 202`, otherwise `response.failure(...)`. -/
def classify_event_response (status : Option ℕ) : Bool :=
  response_status_code status == 202

/-! ## load_test.py -/

/-- The aggregated row read from `load_test_stats.csv` by
`analyze_results`: request count, failure rate, median response time, and
requests per second. -/
structure AggregatedStats where
  total_requests : ℕ
  failure_rate : ℚ
  median_response_time : ℚ
  rps : ℚ
deriving Repr, DecidableEq

/-- `analyze_results`: `none` stands for an absent
`load-test/results/load_test_stats.csv` (the `stats_file.exists()` guard
falls through to the trailing `return False`). With stats present, the
code returns False when `failure_rate > 0.01`, then False when the median
response time exceeds 500 ms, and True otherwise. -/
def analyze_results (stats : Option AggregatedStats) : Bool :=
  match stats with
  | none => false
  | some s =>
      if s.failure_rate > 1 / 100 then false
      else if s.median_response_time > 500 then false
      else true

/-- How the body of the health response parses: not JSON at all, a JSON
document without a `status` field, or one with a `status` field. -/
inductive JsonBody
  | notJson
  | jsonWithoutStatus
  | jsonWithStatus (v : String)
deriving Repr, DecidableEq

/-- What `requests.get` on the health endpoint produced: a transport
error (raises `requests.exceptions.RequestException`) or a response with
a status code and a body. -/
inductive HealthResponse
  | transportError (e : String)
  | response (status : ℕ) (body : JsonBody)
deriving Repr, DecidableEq

/-- `check_health`. `some b` means the function returns the boolean `b`;
`none` means it raises. A transport error is caught and yields False. On
status 200, `response.json()` is called: a non-JSON body raises
`requests.exceptions.JSONDecodeError`, a `RequestException` subclass, so
it is caught and yields False; a JSON body without a `status` key makes
the lookup `health['status']` in the print statement raise `KeyError`,
which the `except` clause does not catch, so the function raises; a JSON
body with a `status` key yields True whatever the field's value is. Any
status other than 200 yields False. -/
def check_health : HealthResponse → Option Bool
  | .transportError _ => some false
  | .response status body =>
      if status = 200 then
        match body with
        | .notJson => some false
        | .jsonWithoutStatus => none
        | .jsonWithStatus _ => some true
      else
        some false

/-- One stage of the hard-coded `test_scenarios` list in
`run_performance_test`. -/
structure StageSpec where
  name : String
  users : ℕ
  spawn_rate : ℕ
  duration : String
deriving Repr, DecidableEq

/-- The fixed scenario list of `run_performance_test`. -/
def test_scenarios : List StageSpec :=
  [{ name := "Low Load", users := 50, spawn_rate := 5, duration := "30s" },
   { name := "Medium Load", users := 200, spawn_rate := 20, duration := "1m" },
   { name := "High Load", users := 500, spawn_rate := 50, duration := "2m" },
   { name := "Peak Load", users := 1000, spawn_rate := 100, duration := "30s" }]

/-- The environment one stage runs against: whether the `locust`
subprocess exits 0 (`run_locust` returns True), and the stats row that
`analyze_results` then finds in the CSV (`none` when the file is absent). -/
structure StageEnv where
  locust_ok : Bool
  stats : Option AggregatedStats
deriving Repr, DecidableEq

/-- Observable events of the orchestration loop, in order. -/
inductive Event
  | runStage (name : String)
  | slaCheck (name : String) (passed : Bool)
  | sleep (seconds : ℕ)
  | locustFailed (name : String)
deriving Repr, DecidableEq

/-- The loop body of `run_performance_test` for one scenario: the stage is
run; when `run_locust` returns True the code analyzes the results and then
sleeps 10 seconds (`time.sleep(10)` sits inside the success branch, so it
runs whether or not the SLA passed, and also on the last scenario); when
`run_locust` returns False the stage is only marked failed. -/
def stage_trace (s : StageSpec) (e : StageEnv) : List Event :=
  if e.locust_ok then
    [Event.runStage s.name, Event.slaCheck s.name (analyze_results e.stats),
     Event.sleep 10]
  else
    [Event.runStage s.name, Event.locustFailed s.name]

/-- Whether one stage leaves `all_passed` intact: the locust run succeeded
and its results met the SLA. -/
def stage_passed (e : StageEnv) : Bool :=
  e.locust_ok && analyze_results e.stats

/-- The `for scenario in test_scenarios` loop of `run_performance_test`,
threading the `all_passed` flag and collecting the event trace. In the
success branch `all_passed` is cleared when `analyze_results` is False;
in the failure branch it is cleared unconditionally. -/
def run_scenarios (env : String → StageEnv) :
    List StageSpec → Bool → Bool × List Event
  | [], all_passed => (all_passed, [])
  | s :: rest, all_passed =>
      let e := env s.name
      let next :=
        if e.locust_ok then
          if analyze_results e.stats then all_passed else false
        else false
      let r := run_scenarios env rest next
      (r.1, stage_trace s e ++ r.2)

/-- `run_performance_test`: runs the fixed scenario list with
`all_passed` initialized to True. -/
def run_performance_test (env : String → StageEnv) : Bool × List Event :=
  run_scenarios env test_scenarios true

/-- The names of the stages actually run, extracted from a trace. -/
def stages_run (tr : List Event) : List String :=
  tr.filterMap (fun e =>
    match e with
    | .runStage n => some n
    | _ => none)

/-- One entry of the final report's scenario list. -/
structure ReportStage where
  name : String
  target : String
deriving Repr, DecidableEq

/-- The final report dictionary written to
`load-test/results/final_report.json`: keys `timestamp`, `success`, and
`test_scenarios` (the report's stage list). -/
structure Report where
  timestamp : String
  success : Bool
  test_scenarios : List ReportStage
deriving Repr, DecidableEq

/-- The hard-coded stage list of the report literal in `main`. -/
def report_scenarios : List ReportStage :=
  [{ name := "Low Load", target := "50 users, 5/s spawn" },
   { name := "Medium Load", target := "200 users, 20/s spawn" },
   { name := "High Load", target := "500 users, 50/s spawn" },
   { name := "Peak Load", target := "1000 users, 100/s spawn" }]

/-- The report `main` builds; `now` stands for
`time.strftime("%Y-%m-%d %H:%M:%S")`. -/
def build_report (now : String) (success : Bool) : Report :=
  { timestamp := now, success := success, test_scenarios := report_scenarios }

/-- The observable result of `main`: the process exit code, the stages the
run executed, and the report written (none when `main` exits before
writing it). -/
structure MainResult where
  exit_code : ℕ
  stages_executed : List String
  report : Option Report
deriving Repr, DecidableEq

/-- `main`: creates the results directory, runs `check_health` and exits 1
when it returns False (when `check_health` raises, the uncaught exception
also terminates the process with exit code 1 before any stage runs), then
runs the scenario suite, writes the final report, and exits 1 when
`success` is False, otherwise falls off the end and the process exits 0. -/
def main (health : HealthResponse) (env : String → StageEnv)
    (now : String) : MainResult :=
  match check_health health with
  | some true =>
      let r := run_performance_test env
      { exit_code := if r.1 then 0 else 1
        stages_executed := stages_run r.2
        report := some (build_report now r.1) }
  | some false => { exit_code := 1, stages_executed := [], report := none }
  | none => { exit_code := 1, stages_executed := [], report := none }

/-! ## Helper lemmas -/

/-- Characterization of the orchestration loop: the final flag is the
initial flag conjoined with every stage's pass bit, and the trace is the
concatenation of the per-stage traces. -/
theorem run_scenarios_eq (env : String → StageEnv) (scs : List StageSpec)
    (ap : Bool) :
    run_scenarios env scs ap =
      (ap && scs.all (fun s => stage_passed (env s.name)),
       scs.flatMap (fun s => stage_trace s (env s.name))) := by
  induction scs generalizing ap with
  | nil => simp [run_scenarios]
  | cons s rest ih =>
      simp only [run_scenarios, ih, List.all_cons, List.flatMap_cons,
        Prod.mk.injEq]
      constructor
      · cases h : (env s.name).locust_ok with
        | false => simp [stage_passed, h]
        | true =>
            cases h2 : analyze_results (env s.name).stats with
            | false => simp [stage_passed, h, h2]
            | true => simp [stage_passed, h, h2]
      · trivial

/-- Each per-stage trace starts with its `runStage` event and contains no
other `runStage` event. -/
theorem stages_run_stage_trace (s : StageSpec) (e : StageEnv)
    (tr : List Event) :
    stages_run (stage_trace s e ++ tr) = s.name :: stages_run tr := by
  cases h : e.locust_ok with
  | false => simp [stage_trace, h, stages_run]
  | true => simp [stage_trace, h, stages_run]

/-- The trace of a scenario list mentions exactly the scenario names, in
order. -/
theorem stages_run_bind (env : String → StageEnv) (scs : List StageSpec) :
    stages_run (scs.flatMap (fun s => stage_trace s (env s.name))) =
      scs.map StageSpec.name := by
  induction scs with
  | nil => simp [stages_run]
  | cons s rest ih =>
      simp only [List.flatMap_cons, List.map_cons]
      rw [stages_run_stage_trace, ih]

/-- A concrete stats row that meets both SLA thresholds. -/
def good_stats : AggregatedStats :=
  { total_requests := 1000, failure_rate := 1 / 200,
    median_response_time := 120, rps := 50 }

/-- A stage environment in which every locust run succeeds and every
stage's stats meet the SLA. -/
def env_all_ok : String → StageEnv :=
  fun _ => { locust_ok := true, stats := some good_stats }

/-- A stage environment in which every locust run succeeds but the stats
file is absent when the Medium Load stage is analyzed. -/
def env_missing_stats : String → StageEnv :=
  fun n =>
    if n = "Medium Load" then { locust_ok := true, stats := none }
    else { locust_ok := true, stats := some good_stats }

/-- The number of sleep events one stage contributes: exactly one when its
locust run succeeded, none otherwise. -/
theorem count_sleep_stage_trace (s : StageSpec) (e : StageEnv) :
    (stage_trace s e).count (Event.sleep 10) =
      if e.locust_ok then 1 else 0 := by
  cases h : e.locust_ok <;> simp [stage_trace, h]

/-- The number of sleep events of a whole run equals the number of stages
whose locust run succeeded. -/
theorem count_sleep_flatMap (env : String → StageEnv) (scs : List StageSpec) :
    (scs.flatMap (fun s => stage_trace s (env s.name))).count (Event.sleep 10) =
      (scs.filter (fun s => (env s.name).locust_ok)).length := by
  induction scs with
  | nil => simp
  | cons s rest ih =>
      rw [List.flatMap_cons, List.count_append, count_sleep_stage_trace, ih,
        List.filter_cons]
      cases h : (env s.name).locust_ok with
      | false => simp [h]
      | true => simp [h]; omega

/-- The overall success flag of a run is the conjunction of the per-stage
pass bits. -/
theorem run_performance_test_success (env : String → StageEnv) :
    (run_performance_test env).1 =
      test_scenarios.all (fun s => stage_passed (env s.name)) := by
  rw [run_performance_test, run_scenarios_eq]
  simp

/-- Every run executes every scenario of the ordered list, in order. -/
theorem run_performance_test_stages (env : String → StageEnv) :
    stages_run (run_performance_test env).2 =
      test_scenarios.map StageSpec.name := by
  rw [run_performance_test, run_scenarios_eq]
  exact stages_run_bind env test_scenarios

/-- The concrete good stats row meets the SLA. -/
theorem analyze_good : analyze_results (some good_stats) = true := by
  norm_num [analyze_results, good_stats]

/-- Every stage of the all-ok environment passes. -/
theorem stage_passed_env_all_ok (n : String) :
    stage_passed (env_all_ok n) = true := by
  simp [stage_passed, env_all_ok, analyze_good]

/-- The all-ok environment yields an overall success flag of true. -/
theorem run_all_ok_success : (run_performance_test env_all_ok).1 = true := by
  rw [run_performance_test_success]
  simp [List.all_eq_true, stage_passed_env_all_ok]

/-! ## Claims -/

/-- C1: the SLA evaluation of a stage's aggregated stats returns true iff
the failure rate is at most 0.01 and the median latency is at most 500 ms.
Purity is intrinsic to the embedding: `analyze_results` is a function of
its argument alone and cannot mutate it. -/
theorem C1_sla_evaluation (s : AggregatedStats) :
    analyze_results (some s) = true ↔
      s.failure_rate ≤ 1 / 100 ∧ s.median_response_time ≤ 500 := by
  simp only [analyze_results]
  by_cases h1 : s.failure_rate > 1 / 100
  · simp [h1, not_le.mpr h1]
  · by_cases h2 : s.median_response_time > 500
    · simp [h1, h2, not_le.mpr h2]
    · simp [h1, h2, le_of_not_lt h1, le_of_not_lt h2]

/-- C1 witness: the theorem applied to a concrete stats row that meets
both thresholds. -/
theorem C1_sla_evaluation_witness : analyze_results (some good_stats) = true :=
  (C1_sla_evaluation good_stats).mpr (by norm_num [good_stats])

/-- C2: a stage that fails its SLA does not abort the run — the trace
mentions every scenario of the ordered list, in order — and the overall
success flag equals the conjunction over all stages of that stage's pass
result (locust run succeeded and its stats met the SLA). -/
theorem C2_no_abort_and_conjunction (env : String → StageEnv) :
    (run_performance_test env).1 =
        test_scenarios.all (fun s => stage_passed (env s.name)) ∧
      stages_run (run_performance_test env).2 =
        test_scenarios.map StageSpec.name :=
  ⟨run_performance_test_success env, run_performance_test_stages env⟩

/-- C3 counterexample: on a 200 response whose body is valid JSON without
a `status` key, `check_health` raises a `KeyError` (modelled as `none`)
instead of returning a boolean, refuting the claim that it returns a
boolean for every possible response. -/
theorem C3_counterexample :
    check_health (HealthResponse.response 200 JsonBody.jsonWithoutStatus) =
      none := rfl

/-- C3 amended: `check_health` returns true iff the response has status
200 and a JSON body containing a `status` field (whatever its value); it
returns false on any transport error, non-200 status, or unparseable
body; but it raises rather than returning a boolean exactly when the
status is 200 and the body is valid JSON lacking a `status` field. -/
theorem C3_check_health_amended (r : HealthResponse) :
    (check_health r = some true ↔
        ∃ v, r = HealthResponse.response 200 (JsonBody.jsonWithStatus v)) ∧
      (check_health r = none ↔
        r = HealthResponse.response 200 JsonBody.jsonWithoutStatus) := by
  cases r with
  | transportError e => simp [check_health]
  | response status body =>
      by_cases h : status = 200
      · subst h
        cases body <;> simp [check_health]
      · cases body <;> simp [check_health, h, Ne.symm h]

/-- C3 witness: the amended theorem applied to a healthy 200 response. -/
theorem C3_check_health_amended_witness :
    check_health
        (HealthResponse.response 200 (JsonBody.jsonWithStatus "healthy")) =
      some true :=
  (C3_check_health_amended
      (HealthResponse.response 200 (JsonBody.jsonWithStatus "healthy"))).1.mpr
    ⟨"healthy", rfl⟩

/-- C4: `main` exits non-zero iff the preflight fails (returns anything
but True, raising included) or the overall success flag is false; when
the preflight fails no stage is executed; and when the preflight passes
and all stages pass their SLA, `main` exits 0 after writing the final
report with `success = true`. -/
theorem C4_main_exit (health : HealthResponse) (env : String → StageEnv)
    (now : String) :
    ((main health env now).exit_code ≠ 0 ↔
        (check_health health ≠ some true ∨
          (run_performance_test env).1 = false)) ∧
      (check_health health ≠ some true →
        (main health env now).stages_executed = []) ∧
      (check_health health = some true ∧ (run_performance_test env).1 = true →
        (main health env now).exit_code = 0 ∧
          (main health env now).report = some (build_report now true) ∧
          (main health env now).stages_executed =
            test_scenarios.map StageSpec.name) := by
  rcases hch : check_health health with _ | b
  · simp [main, hch]
  · cases b with
    | false => simp [main, hch]
    | true =>
        refine ⟨?_, ?_, ?_⟩
        · cases hr : (run_performance_test env).1 <;>
            simp [main, hch, hr]
        · intro hcontra
          exact absurd rfl hcontra
        · rintro ⟨-, hr⟩
          refine ⟨by simp [main, hch, hr], by simp [main, hch, hr], ?_⟩
          have h2 := run_performance_test_stages env
          simpa [main, hch, hr] using h2

/-- C4 witness: `main` against a healthy response and an all-passing
environment exits 0 with the full stage list and the success report;
against a failing preflight it exits 1 with no stage executed. -/
theorem C4_main_exit_witness :
    (main (HealthResponse.response 200 (JsonBody.jsonWithStatus "ok"))
          env_all_ok "2026-01-01 00:00:00").exit_code = 0 ∧
      (main (HealthResponse.response 500 JsonBody.notJson)
          env_all_ok "2026-01-01 00:00:00").stages_executed = [] :=
  ⟨((C4_main_exit (HealthResponse.response 200 (JsonBody.jsonWithStatus "ok"))
        env_all_ok "2026-01-01 00:00:00").2.2 ⟨rfl, run_all_ok_success⟩).1,
   (C4_main_exit (HealthResponse.response 500 JsonBody.notJson)
        env_all_ok "2026-01-01 00:00:00").2.1 (by decide)⟩

/-- C5: a request outcome is recorded as a success iff the response
status code is exactly 202; any other status, and a transport error
(which surfaces as status code 0 under `catch_response`), is recorded as
a failure. -/
theorem C5_success_iff_202 (status : Option ℕ) :
    classify_event_response status = true ↔ status = some 202 := by
  cases status with
  | none => simp [classify_event_response, response_status_code]
  | some c => simp [classify_event_response, response_status_code]

/-- C5 witness: the theorem applied at status 202 and at a transport
error. -/
theorem C5_success_iff_202_witness :
    classify_event_response (some 202) = true ∧
      classify_event_response none = false :=
  ⟨(C5_success_iff_202 (some 202)).mpr rfl,
   by
    cases h : classify_event_response none with
    | false => rfl
    | true => exact absurd ((C5_success_iff_202 none).mp h) (by decide)⟩

/-- C6 counterexample: in a run in which every locust run succeeds, the
orchestration trace ends with a 10-second sleep event — the code does
pause after the final stage, refuting the claim that no pause follows
it. -/
theorem C6_counterexample :
    (run_performance_test env_all_ok).2.getLast? = some (Event.sleep 10) := by
  have h : (run_performance_test env_all_ok).2 =
      test_scenarios.flatMap (fun s => stage_trace s (env_all_ok s.name)) := by
    rw [run_performance_test, run_scenarios_eq]
  rw [h]
  simp only [test_scenarios, stage_trace, env_all_ok, analyze_good,
    List.flatMap_cons, List.flatMap_nil, if_true]
  decide

/-- C6 amended: the orchestrator sleeps 10 seconds after every stage
whose locust run succeeded — including the final stage — and inserts no
pause after a stage whose locust run failed. -/
theorem C6_sleep_after_each_successful_stage (env : String → StageEnv) :
    (run_performance_test env).2.count (Event.sleep 10) =
        (test_scenarios.filter (fun s => (env s.name).locust_ok)).length ∧
      ((env "Peak Load").locust_ok = true →
        (run_performance_test env).2.getLast? = some (Event.sleep 10)) := by
  have htr : (run_performance_test env).2 =
      test_scenarios.flatMap (fun s => stage_trace s (env s.name)) := by
    rw [run_performance_test, run_scenarios_eq]
  constructor
  · rw [htr, count_sleep_flatMap]
  · intro hpk
    rw [htr]
    simp only [test_scenarios, List.flatMap_cons, List.flatMap_nil,
      List.append_nil, List.append_assoc]
    rw [List.getLast?_append_of_ne_nil, List.getLast?_append_of_ne_nil,
      List.getLast?_append_of_ne_nil] <;>
      simp [stage_trace, hpk]

/-- C6 amended witness: the amended theorem applied to the all-ok
environment, in which all four stages sleep and the trace ends with a
sleep. -/
theorem C6_sleep_after_each_successful_stage_witness :
    (run_performance_test env_all_ok).2.count (Event.sleep 10) =
        (test_scenarios.filter
          (fun s => (env_all_ok s.name).locust_ok)).length ∧
      (run_performance_test env_all_ok).2.getLast? = some (Event.sleep 10) :=
  ⟨(C6_sleep_after_each_successful_stage env_all_ok).1,
   (C6_sleep_after_each_successful_stage env_all_ok).2 rfl⟩

/-- C7: the final report carries the timestamp, the boolean success flag,
and a stage list with an entry (name and target) for every stage of the
scenario, in order: its stage names coincide with the orchestrator's
scenario names. -/
theorem C7_final_report_shape (now : String) (success : Bool) :
    (build_report now success).timestamp = now ∧
      (build_report now success).success = success ∧
      (build_report now success).test_scenarios.map ReportStage.name =
        test_scenarios.map StageSpec.name ∧
      (build_report now success).test_scenarios.length =
        test_scenarios.length :=
  ⟨rfl, rfl, rfl, rfl⟩

/-- C8: for every task (event category) and every user context, the
payload built by `send_event` contains the actor's user id, the category
label, the ISO-8601 UTC timestamp captured at call time, the priority
associated with the category, and the fixed synthetic-load metadata
block. -/
theorem C8_payload_fields (t : TaskName) (user_id now fresh_hex : String) :
    (run_task t user_id now fresh_hex).user_id = user_id ∧
      (run_task t user_id now fresh_hex).event_type = task_event_type t ∧
      (run_task t user_id now fresh_hex).timestamp = now ++ "Z" ∧
      (run_task t user_id now fresh_hex).priority = task_priority t ∧
      (run_task t user_id now fresh_hex).metadata =
        { app_version := "2.1.0", platform := "web", load_test := true } := by
  cases t <;>
    simp [run_task, send_event, task_event_type, task_priority]

/-- C9: in the weight-expanded task list, each task occupies exactly its
weight of the 9 equally likely slots, so uniform selection picks the
click, login and purchase tasks with probability 5/9, 3/9 and 1/9. -/
theorem C9_weighted_selection (t : TaskName) :
    expanded_tasks.count t = task_weight t ∧
      expanded_tasks.length = 9 ∧
      ((expanded_tasks.count t : ℚ) / (expanded_tasks.length : ℚ) =
        (task_weight t : ℚ) / 9) := by
  have h1 : expanded_tasks.count t = task_weight t := by
    cases t <;> decide
  have h2 : expanded_tasks.length = 9 := by decide
  refine ⟨h1, h2, ?_⟩
  rw [h1, h2]
  norm_num

/-- C10: when the per-stage statistics file is absent, `analyze_results`
returns false, so the affected stage counts as an SLA failure: the
overall success flag is false, yet every stage still runs — no distinct
fatal condition is raised. -/
theorem C10_missing_stats_is_sla_failure (env : String → StageEnv)
    (s : StageSpec) (hs : s ∈ test_scenarios)
    (hstats : (env s.name).stats = none) :
    analyze_results (env s.name).stats = false ∧
      (run_performance_test env).1 = false ∧
      stages_run (run_performance_test env).2 =
        test_scenarios.map StageSpec.name := by
  have hfail : analyze_results (env s.name).stats = false := by
    rw [hstats]
    rfl
  refine ⟨hfail, ?_, run_performance_test_stages env⟩
  rw [run_performance_test_success]
  have hp : stage_passed (env s.name) = false := by
    simp [stage_passed, hfail]
  cases hall : test_scenarios.all (fun s => stage_passed (env s.name)) with
  | false => rfl
  | true =>
      have := List.all_eq_true.mp hall s hs
      rw [hp] at this
      exact absurd this (by decide)

/-- C10 witness: the theorem applied to an environment in which the
Medium Load stage's stats file is absent. -/
theorem C10_missing_stats_is_sla_failure_witness :
    analyze_results (env_missing_stats "Medium Load").stats = false ∧
      (run_performance_test env_missing_stats).1 = false ∧
      stages_run (run_performance_test env_missing_stats).2 =
        test_scenarios.map StageSpec.name :=
  C10_missing_stats_is_sla_failure env_missing_stats
    { name := "Medium Load", users := 200, spawn_rate := 20, duration := "1m" }
    (by decide) rfl

end EventService
